import Mathlib

/-!
Verification development for the alert-dispatch core of docker-alertd
(cmd/alerters.go): the Email, Slack and Pushover backends, their
configuration validation, and the wire bodies they produce.

External effects (SMTP dial-and-send, HTTP POST) are modelled by passing
the transport as an explicit function argument; each backend's Alert
method returns its result, the log lines it emits, and the alert value it
leaves behind (explicit state passing for the `*Alert` pointer argument).
-/

/-- Modelled from the spec: the Alert payload type and its renderings are
declared outside the provided source (only their callers are in
src/cmd/alerters.go).  Per the spec the alert carries a primary message
text and an ordered sequence of subject addendums. -/
structure Alert where
  Message : String
  SubjectAddendums : List String
deriving DecidableEq

/-- Modelled from the spec: `dump()` is the plain-text rendering of the
alert used by the webhook and push channels; modelled as the message
text. -/
def Alert.Dump (a : Alert) : String := a.Message

/-- Modelled from the spec: `dumpEmail()` is the HTML rendering of the
alert used by the email channel; modelled as the message text. -/
def Alert.DumpEmail (a : Alert) : String := a.Message

/-- Modelled from the spec: the error variable `ErrEmailNoSMTP` is declared
outside the provided source; the spec only says each is a human-readable
field-missing description. -/
def ErrEmailNoSMTP : String := "email setting missing: SMTP host"

/-- Modelled from the spec: the error variable `ErrEmailNoTo`. -/
def ErrEmailNoTo : String := "email setting missing: to addresses"

/-- Modelled from the spec: the error variable `ErrEmailNoFrom`. -/
def ErrEmailNoFrom : String := "email setting missing: from address"

/-- Modelled from the spec: the error variable `ErrEmailNoUser`. -/
def ErrEmailNoUser : String := "email setting missing: username"

/-- Modelled from the spec: the error variable `ErrEmailNoPass`. -/
def ErrEmailNoPass : String := "email setting missing: password"

/-- Modelled from the spec: the error variable `ErrEmailNoPort`. -/
def ErrEmailNoPort : String := "email setting missing: port"

/-- Modelled from the spec: the error variable `ErrEmailNoSubject`. -/
def ErrEmailNoSubject : String := "email setting missing: subject"

/-- Modelled from the spec: the error variable `ErrSlackNoWebHookURL`. -/
def ErrSlackNoWebHookURL : String := "slack setting missing: webhook URL"

/-- Modelled from the spec: the error variable `ErrPushoverAPIToken`. -/
def ErrPushoverAPIToken : String := "pushover setting missing: API token"

/-- Modelled from the spec: the error variable `ErrPushoverUserKey`. -/
def ErrPushoverUserKey : String := "pushover setting missing: user key"

/-- Modelled from the spec: the error variable `ErrPushoverAPIURL`. -/
def ErrPushoverAPIURL : String := "pushover setting missing: API URL"

/-- The `Email` configuration struct of cmd/alerters.go. -/
structure Email where
  SMTP : String
  Username : String
  Password : String
  Port : String
  From : String
  To : List String
  Subject : String
deriving DecidableEq

/-- The subject-building loop of `Email.Alert`
(`for i := range a.SubjectAddendums \x7b ... \x7d`), with the loop index
and the accumulated subject string made explicit.  The loop appends every
addendum followed by a space and, right after appending the element at
index 2, appends a literal ellipsis; it does not break. -/
def subjectLoop : List String → Nat → String → String
  | [], _, s => s
  | x :: rest, i, s =>
    let s1 := s ++ x ++ " "
    let s2 := if i = 2 then s1 ++ "..." else s1
    subjectLoop rest (i + 1) s2

/-- The subject composed by `Email.Alert`: the configured prefix, a colon
and space, then the subject loop over the addendums. -/
def Email.subjectLine (e : Email) (a : Alert) : String :=
  subjectLoop a.SubjectAddendums 0 (e.Subject ++ ": ")

/-- `Email.Valid` of cmd/alerters.go.  `none` models a nil error; `some s`
models an error whose `Error()` text is `s` (`errors.Wrap(err, msg)`
yields the text `msg ++ ": " ++ err.Error()`). -/
def Email.Valid (e : Email) : Option String :=
  if e = { SMTP := "", Username := "", Password := "", Port := "",
           From := "", To := [], Subject := "" } then none
  else
    let errString : List String := []
    let errString := if e.SMTP = "" then errString ++ [ErrEmailNoSMTP] else errString
    let errString := if e.To.length < 1 then errString ++ [ErrEmailNoTo] else errString
    let errString := if e.From = "" then errString ++ [ErrEmailNoFrom] else errString
    let errString := if e.Username = "" then errString ++ [ErrEmailNoUser] else errString
    let errString := if e.Password = "" then errString ++ [ErrEmailNoPass] else errString
    let errString := if e.Port = "" then errString ++ [ErrEmailNoPort] else errString
    let errString := if e.Subject = "" then errString ++ [ErrEmailNoSubject] else errString
    if errString = [] then none
    else some ("email settings validation fail: " ++ String.intercalate ", " errString)

/-- Error discriminator of Go's `strconv.Atoi`: a syntax error (value 0)
or a range error (value clamped to the int64 bounds). -/
inductive AtoiErr
  | synErr
  | rangeErr
deriving DecidableEq

/-- Decimal digit parser underlying `strconv.Atoi`: consumes the whole
list, failing on any non-digit character. -/
def parseDigitsAux : List Char → Nat → Option Nat
  | [], acc => some acc
  | c :: cs, acc =>
    if '0' ≤ c ∧ c ≤ '9' then parseDigitsAux cs (acc * 10 + (c.toNat - 48))
    else none

/-- Core of `strconv.Atoi` after the optional sign has been stripped:
empty digit strings and non-digit characters give a syntax error with
value 0; out-of-range values are clamped with a range error. -/
def atoiCore (neg : Bool) (ds : List Char) : Int × Option AtoiErr :=
  match ds with
  | [] => (0, some AtoiErr.synErr)
  | _ :: _ =>
    match parseDigitsAux ds 0 with
    | none => (0, some AtoiErr.synErr)
    | some n =>
      if neg then
        if n > 2 ^ 63 then (-(2 ^ 63 : Int), some AtoiErr.rangeErr)
        else (-(n : Int), none)
      else
        if n > 2 ^ 63 - 1 then ((2 ^ 63 - 1 : Int), some AtoiErr.rangeErr)
        else ((n : Int), none)

/-- `strconv.Atoi` on the character list of the string: optional leading
sign, then decimal digits. -/
def atoiL : List Char → Int × Option AtoiErr
  | '+' :: rest => atoiCore false rest
  | '-' :: rest => atoiCore true rest
  | l => atoiCore false l

/-- Go's `strconv.Atoi`: returns the parsed value together with an
optional error.  `Email.Alert` discards the error component. -/
def atoi (s : String) : Int × Option AtoiErr := atoiL s.toList

/-- The `gomail` message built by `Email.Alert`: body type and body set by
`m.SetBody("text/html", a.DumpEmail())`, headers From/To/Subject set via
`m.SetHeaders`. -/
structure GomailMessage where
  bodyType : String
  body : String
  headerFrom : String
  headerTo : String
  headerSubject : String
deriving DecidableEq

/-- The plain dialer built by `Email.Alert` via
`gomail.NewPlainDialer(e.SMTP, port, e.Username, e.Password)` where
`port, _ := strconv.Atoi(e.Port)`. -/
structure Dialer where
  host : String
  port : Int
  username : String
  password : String
deriving DecidableEq

/-- The message `Email.Alert` constructs for the given alert. -/
def Email.message (e : Email) (a : Alert) : GomailMessage :=
  { bodyType := "text/html"
    body := a.DumpEmail
    headerFrom := e.From
    headerTo := String.intercalate "," e.To
    headerSubject := e.subjectLine a }

/-- The dialer `Email.Alert` constructs; the Atoi error on the port is
discarded, only the value is used. -/
def Email.dialer (e : Email) : Dialer :=
  { host := e.SMTP
    port := (atoi e.Port).1
    username := e.Username
    password := e.Password }

/-- Result of one backend `Alert` call: the returned error (`Except`),
the log lines written, and the alert value after the call (the Go methods
receive `*Alert`; explicit state passing models the pointer). -/
structure AlertOutcome where
  result : Except String Unit
  logs : List String
  alertAfter : Alert

/-- `Email.Alert` of cmd/alerters.go, with the SMTP dial-and-send step
passed in as a function from the constructed dialer and message to an
optional error.  On failure the error is wrapped with the context
"error sending email"; on success the line "alert email sent" is logged. -/
def Email.Alert (e : Email) (a : Alert)
    (dialAndSend : Dialer → GomailMessage → Option String) : AlertOutcome :=
  match dialAndSend (Email.dialer e) (Email.message e a) with
  | some err =>
    { result := .error ("error sending email: " ++ err), logs := [], alertAfter := a }
  | none =>
    { result := .ok (), logs := ["alert email sent"], alertAfter := a }

/-- The `Slack` configuration struct of cmd/alerters.go. -/
structure Slack where
  WebhookURL : String
deriving DecidableEq

/-- `Slack.Valid` of cmd/alerters.go. -/
def Slack.Valid (s : Slack) : Option String :=
  if s = { WebhookURL := "" } then none
  else
    let errString : List String := []
    let errString := if s.WebhookURL = "" then errString ++ [ErrSlackNoWebHookURL] else errString
    if errString = [] then none
    else some ("slack settings validation fail: " ++ String.intercalate ", " errString)

/-- An HTTP POST request as issued by `http.Post(url, contentType, body)`. -/
structure HTTPRequest where
  url : String
  contentType : String
  body : String
deriving DecidableEq

/-- The request `Slack.Alert` posts: the dump text is inlined verbatim
into the JSON template `\x7b"text": "%s"\x7d` with no escaping. -/
def Slack.request (s : Slack) (a : Alert) : HTTPRequest :=
  { url := s.WebhookURL
    contentType := "application/json"
    body := "\x7b\"text\": \"" ++ a.Dump ++ "\"\x7d" }

/-- `Slack.Alert` of cmd/alerters.go, with the HTTP POST passed in as a
function from the request to either a transport error or a response
status code.  The status code is never inspected; a transport error is
returned unwrapped. -/
def Slack.Alert (s : Slack) (a : Alert)
    (post : HTTPRequest → Except String Nat) : AlertOutcome :=
  match post (Slack.request s a) with
  | .error err => { result := .error err, logs := [], alertAfter := a }
  | .ok _ => { result := .ok (), logs := ["sent alert to slack"], alertAfter := a }

/-- The `Pushover` configuration struct of cmd/alerters.go. -/
structure Pushover where
  APIToken : String
  UserKey : String
  APIURL : String
deriving DecidableEq

/-- `Pushover.Valid` of cmd/alerters.go. -/
def Pushover.Valid (p : Pushover) : Option String :=
  if p = { APIToken := "", UserKey := "", APIURL := "" } then none
  else
    let errString : List String := []
    let errString := if p.APIToken = "" then errString ++ [ErrPushoverAPIToken] else errString
    let errString := if p.UserKey = "" then errString ++ [ErrPushoverUserKey] else errString
    let errString := if p.APIURL = "" then errString ++ [ErrPushoverAPIURL] else errString
    if errString = [] then none
    else some ("pushover settings validation fail: " ++ String.intercalate ", " errString)

/-- Uppercase hexadecimal digit, as produced by Go's URL escaping. -/
def hexDigitUpper (n : Nat) : Char :=
  if n < 10 then Char.ofNat (48 + n) else Char.ofNat (55 + n)

/-- UTF-8 encoding of one Unicode code point, as the byte values Go
iterates over when escaping a string. -/
def utf8Bytes (c : Nat) : List Nat :=
  if c < 128 then [c]
  else if c < 2048 then [192 + c / 64, 128 + c % 64]
  else if c < 65536 then [224 + c / 4096, 128 + c / 64 % 64, 128 + c % 64]
  else [240 + c / 262144, 128 + c / 4096 % 64, 128 + c / 64 % 64, 128 + c % 64]

/-- The UTF-8 bytes of a string. -/
def strBytes (s : String) : List Nat := s.toList.flatMap (fun c => utf8Bytes c.toNat)

/-- One byte under Go's `url.QueryEscape`: ASCII letters, digits and
`-`, `_`, `.`, `~` are kept, a space becomes `+`, every other byte
becomes `%` followed by two uppercase hex digits. -/
def queryEscapeByte (b : Nat) : String :=
  if (65 ≤ b ∧ b ≤ 90) ∨ (97 ≤ b ∧ b ≤ 122) ∨ (48 ≤ b ∧ b ≤ 57)
      ∨ b = 45 ∨ b = 95 ∨ b = 46 ∨ b = 126 then
    String.singleton (Char.ofNat b)
  else if b = 32 then "+"
  else "%" ++ String.singleton (hexDigitUpper (b / 16)) ++ String.singleton (hexDigitUpper (b % 16))

/-- Go's `url.QueryEscape`, applied byte-wise to the UTF-8 bytes. -/
def queryEscape (s : String) : String :=
  String.join ((strBytes s).map queryEscapeByte)

/-- The request `Pushover.Alert` posts: only the message component is
passed through `url.QueryEscape`; the token and user key are inlined
verbatim into the format string. -/
def Pushover.request (p : Pushover) (a : Alert) : HTTPRequest :=
  { url := p.APIURL
    contentType := "application/x-www-form-urlencoded"
    body := "token=" ++ p.APIToken ++ "&user=" ++ p.UserKey ++ "&message=" ++ queryEscape a.Dump }

/-- `Pushover.Alert` of cmd/alerters.go, with the HTTP POST passed in as
a function; as for Slack, the response status is never inspected and a
transport error is returned unwrapped. -/
def Pushover.Alert (p : Pushover) (a : Alert)
    (post : HTTPRequest → Except String Nat) : AlertOutcome :=
  match post (Pushover.request p a) with
  | .error err => { result := .error err, logs := [], alertAfter := a }
  | .ok _ => { result := .ok (), logs := ["sent alert to pushover"], alertAfter := a }

/-- Substring test helper: does the pattern occur as a prefix of the text? -/
def startsWithL : List Char → List Char → Bool
  | [], _ => true
  | _ :: _, [] => false
  | p :: ps, c :: cs => p == c && startsWithL ps cs

/-- Substring test helper: does the pattern occur anywhere in the text? -/
def containsL (pat : List Char) : List Char → Bool
  | [] => startsWithL pat []
  | c :: cs => startsWithL pat (c :: cs) || containsL pat cs

/-- Does `pat` occur as a contiguous substring of `s`? -/
def strContains (s pat : String) : Bool := containsL pat.toList s.toList

/-- Every addendum followed by one space, concatenated in order. -/
def joinSp : List String → String
  | [] => ""
  | x :: rest => x ++ " " ++ joinSp rest

/-- The subject rule the code actually implements (amended form of the
spec's truncation rule): all addendums are rendered, each followed by a
space, and a literal ellipsis is inserted immediately after the third
addendum whenever at least three exist. -/
def subjectAmended (p : String) (l : List String) : String :=
  p ++ ": " ++ joinSp (l.take 3) ++ (if 3 ≤ l.length then "..." else "") ++ joinSp (l.drop 3)

/-- The aggregated error text Email.Valid produces when exactly the From
and Password fields are missing. -/
def emailFromPassFailMsg : String :=
  "email settings validation fail: " ++ String.intercalate ", " [ErrEmailNoFrom, ErrEmailNoPass]

lemma subjectLoop_ge (l : List String) : ∀ (i : Nat) (s : String), 3 ≤ i →
    subjectLoop l i s = s ++ joinSp l := by
  induction l with
  | nil => intro i s _; simp [subjectLoop, joinSp]
  | cons x rest ih =>
    intro i s h
    have hi : ¬ i = 2 := by omega
    simp only [subjectLoop, joinSp, hi, if_false, ih (i + 1) _ (by omega), String.append_assoc]

/-- C1 (counterexample): for addendums ["a","b","c","d"] and prefix "ALERT"
the rendered subject is "ALERT: a b c ...d ", not "ALERT: a b c ...": the
loop does not stop after the third addendum. -/
theorem subject_truncation_counterexample :
    Email.subjectLine { SMTP := "", Username := "", Password := "", Port := "", From := "", To := [], Subject := "ALERT" } { Message := "", SubjectAddendums := ["a", "b", "c", "d"] } = "ALERT: a b c ...d " ∧
    Email.subjectLine { SMTP := "", Username := "", Password := "", Port := "", From := "", To := [], Subject := "ALERT" } { Message := "", SubjectAddendums := ["a", "b", "c", "d"] } ≠ "ALERT: a b c ..." := by
  constructor
  · decide
  · decide

/-- C1 (amended): the subject rendered by Email.Alert is the prefix plus
": " plus every addendum each followed by a space, with a literal "..."
inserted immediately after the third addendum whenever at least three
addendums exist (later addendums still follow the ellipsis); in
particular for ["a","b"] it is "ALERT: a b " with no ellipsis. -/
theorem subject_composition_amended (e : Email) (a : Alert) :
    Email.subjectLine e a = subjectAmended e.Subject a.SubjectAddendums := by
  unfold Email.subjectLine subjectAmended
  match a.SubjectAddendums with
  | [] => simp [subjectLoop, joinSp]
  | [x] => simp [subjectLoop, joinSp, String.append_assoc]
  | [x, y] => simp [subjectLoop, joinSp, String.append_assoc]
  | x :: y :: z :: rest =>
    have h3 : (3 : Nat) ≤ (x :: y :: z :: rest).length := by simp
    rw [if_pos h3]
    simp [subjectLoop, subjectLoop_ge rest 3 _ (by omega), joinSp, String.append_assoc]

/-- C3: for each of the three backend kinds, the all-zero configuration
value is classified as an omitted channel and Valid returns nil. -/
theorem valid_zero_config_nil :
    Email.Valid { SMTP := "", Username := "", Password := "", Port := "", From := "", To := [], Subject := "" } = none ∧
    Slack.Valid { WebhookURL := "" } = none ∧
    Pushover.Valid { APIToken := "", UserKey := "", APIURL := "" } = none :=
  ⟨rfl, rfl, rfl⟩

/-- C5: Slack.Alert posts exactly the body consisting of the JSON
template with the raw dump text inlined unescaped, with content-type
application/json; for a dump of "status: down" the body is exactly the
two-brace JSON object with that text. -/
theorem slack_body_exact (s : Slack) (a : Alert) :
    (Slack.request s a).body = "\x7b\"text\": \"" ++ a.Dump ++ "\"\x7d" ∧
    (Slack.request s a).contentType = "application/json" ∧
    (Slack.request { WebhookURL := "https://hooks.example.com/x" } { Message := "status: down", SubjectAddendums := [] }).body = "\x7b\"text\": \"status: down\"\x7d" :=
  ⟨rfl, rfl, by decide⟩

/-- C6: for Slack and Pushover, Alert returns nil whenever the POST
completes without a transport error, whatever the response status code,
and returns the transport error unwrapped when the POST fails. -/
theorem alert_status_ignored (s : Slack) (p : Pushover) (a : Alert) (status : Nat)
    (err : String) :
    (Slack.Alert s a (fun _ => .ok status)).result = .ok () ∧
    (Slack.Alert s a (fun _ => .error err)).result = .error err ∧
    (Pushover.Alert p a (fun _ => .ok status)).result = .ok () ∧
    (Pushover.Alert p a (fun _ => .error err)).result = .error err :=
  ⟨rfl, rfl, rfl, rfl⟩

/-- C7: when the SMTP dial-and-send step fails, Email.Alert returns the
error wrapped with the context "error sending email" and logs nothing;
when it succeeds, Email.Alert logs exactly "alert email sent" and
returns nil. -/
theorem email_alert_error_wrap (e : Email) (a : Alert) (err : String) :
    ((Email.Alert e a (fun _ _ => some err)).result =
        .error ("error sending email: " ++ err) ∧
      (Email.Alert e a (fun _ _ => some err)).logs = []) ∧
    ((Email.Alert e a (fun _ _ => none)).result = .ok () ∧
      (Email.Alert e a (fun _ _ => none)).logs = ["alert email sent"]) :=
  ⟨⟨rfl, rfl⟩, ⟨rfl, rfl⟩⟩

/-- C8: no backend mutates the alert it is given: for every transport
outcome, the alert value after Email.Alert, Slack.Alert and
Pushover.Alert is the one passed in. -/
theorem alert_not_mutated (e : Email) (s : Slack) (p : Pushover) (a : Alert)
    (dialAndSend : Dialer → GomailMessage → Option String)
    (post1 post2 : HTTPRequest → Except String Nat) :
    (Email.Alert e a dialAndSend).alertAfter = a ∧
    (Slack.Alert s a post1).alertAfter = a ∧
    (Pushover.Alert p a post2).alertAfter = a := by
  refine ⟨?_, ?_, ?_⟩
  · unfold Email.Alert
    cases dialAndSend (Email.dialer e) (Email.message e a) <;> rfl
  · unfold Slack.Alert
    cases post1 (Slack.request s a) <;> rfl
  · unfold Pushover.Alert
    cases post2 (Pushover.request p a) <;> rfl

/-- C9: every Slack configuration passes validation: the empty-URL error
branch is unreachable because a Slack value whose only field is empty is
exactly the zero value, which is treated as an omitted channel first. -/
theorem slack_valid_always_nil (s : Slack) : Slack.Valid s = none := by
  obtain ⟨u⟩ := s
  by_cases h : u = ""
  · subst h; rfl
  · simp [Slack.Valid, h]

/-- C2 (counterexample): for an API token containing a space, the body
built by Pushover.Alert inlines the token verbatim instead of
form-urlencoding it, so the body is not of the claimed all-urlencoded
form. -/
theorem pushover_body_encoding_counterexample :
    (Pushover.request { APIToken := "a b", UserKey := "U", APIURL := "https://api.pushover.net/1/messages.json" } { Message := "host X failed", SubjectAddendums := [] }).body = "token=a b&user=U&message=host+X+failed" ∧
    (Pushover.request { APIToken := "a b", UserKey := "U", APIURL := "https://api.pushover.net/1/messages.json" } { Message := "host X failed", SubjectAddendums := [] }).body ≠
      "token=" ++ queryEscape "a b" ++ "&user=" ++ queryEscape "U" ++ "&message=" ++ queryEscape "host X failed" := by
  constructor
  · decide
  · decide

/-- C2 (amended): the body built by Pushover.Alert is exactly
token=<raw token>&user=<raw key>&message=<urlencoded dump> — only the
message component is form-urlencoded, the token and user key are inlined
verbatim — posted with content-type application/x-www-form-urlencoded;
for token "T", user key "U" and dump "host X failed" the body is exactly
"token=T&user=U&message=host+X+failed". -/
theorem pushover_body_amended (p : Pushover) (a : Alert) :
    (Pushover.request p a).body =
      "token=" ++ p.APIToken ++ "&user=" ++ p.UserKey ++ "&message=" ++ queryEscape a.Dump ∧
    (Pushover.request p a).contentType = "application/x-www-form-urlencoded" ∧
    (Pushover.request { APIToken := "T", UserKey := "U", APIURL := "https://api.pushover.net/1/messages.json" } { Message := "host X failed", SubjectAddendums := [] }).body = "token=T&user=U&message=host+X+failed" :=
  ⟨rfl, rfl, by decide⟩

/-- C4: for an Email configuration missing exactly From and Password
(all other required fields non-empty), Valid returns the error whose text
is the comma-joined list of the From-missing and Password-missing
messages wrapped with "email settings validation fail"; that text
contains both of those field messages and none of the other five. -/
theorem email_valid_missing_from_password (e : Email)
    (hS : e.SMTP ≠ "") (hT : e.To ≠ []) (hF : e.From = "") (hU : e.Username ≠ "")
    (hP : e.Password = "") (hPo : e.Port ≠ "") (hSu : e.Subject ≠ "") :
    Email.Valid e = some emailFromPassFailMsg ∧
    strContains emailFromPassFailMsg ErrEmailNoFrom = true ∧
    strContains emailFromPassFailMsg ErrEmailNoPass = true ∧
    strContains emailFromPassFailMsg ErrEmailNoSMTP = false ∧
    strContains emailFromPassFailMsg ErrEmailNoTo = false ∧
    strContains emailFromPassFailMsg ErrEmailNoUser = false ∧
    strContains emailFromPassFailMsg ErrEmailNoPort = false ∧
    strContains emailFromPassFailMsg ErrEmailNoSubject = false := by
  have hz : e ≠ { SMTP := "", Username := "", Password := "", Port := "", From := "", To := [], Subject := "" } := by
    intro h
    rw [h] at hS
    exact hS rfl
  refine ⟨?_, by decide, by decide, by decide, by decide, by decide, by decide, by decide⟩
  simp [Email.Valid, hz, hS, hT, hF, hU, hP, hPo, hSu, Nat.lt_one_iff,
    List.length_eq_zero, emailFromPassFailMsg]

/-- C4 (witness): a concrete Email configuration missing exactly From and
Password. -/
theorem email_valid_missing_from_password_witness :
    Email.Valid { SMTP := "smtp.example.com", Username := "user", Password := "", Port := "587", From := "", To := ["ops@example.com"], Subject := "ALERT" } = some emailFromPassFailMsg ∧
    strContains emailFromPassFailMsg ErrEmailNoFrom = true ∧
    strContains emailFromPassFailMsg ErrEmailNoPass = true ∧
    strContains emailFromPassFailMsg ErrEmailNoSMTP = false ∧
    strContains emailFromPassFailMsg ErrEmailNoTo = false ∧
    strContains emailFromPassFailMsg ErrEmailNoUser = false ∧
    strContains emailFromPassFailMsg ErrEmailNoPort = false ∧
    strContains emailFromPassFailMsg ErrEmailNoSubject = false :=
  email_valid_missing_from_password _ (by decide) (by decide) rfl (by decide) rfl
    (by decide) (by decide)

lemma atoiCore_syn_zero (neg : Bool) (ds : List Char) :
    (atoiCore neg ds).2 = some AtoiErr.synErr → (atoiCore neg ds).1 = 0 := by
  unfold atoiCore
  match ds with
  | [] => intro _; rfl
  | c :: cs =>
    cases hp : parseDigitsAux (c :: cs) 0 with
    | none => intro _; rfl
    | some n =>
      intro h
      exfalso
      cases neg <;> simp only [if_true, if_false, Bool.false_eq_true, ite_false, ite_true] at h <;>
        split at h <;> simp_all

lemma atoiL_syn_zero (l : List Char) :
    (atoiL l).2 = some AtoiErr.synErr → (atoiL l).1 = 0 := by
  unfold atoiL
  split
  · exact atoiCore_syn_zero false _
  · exact atoiCore_syn_zero true _
  · exact atoiCore_syn_zero false _

/-- C10: Email.Valid accepts any non-empty Port string without checking
that it is numeric (a fully populated configuration with a syntactically
invalid port validates to nil), and Email.Alert discards the parse error
for such a port, building its dialer with port 0; neither operation
surfaces an error about the malformed port. -/
theorem email_port_not_validated (e : Email)
    (hS : e.SMTP ≠ "") (hT : e.To ≠ []) (hF : e.From ≠ "") (hU : e.Username ≠ "")
    (hP : e.Password ≠ "") (hPo : e.Port ≠ "") (hSu : e.Subject ≠ "")
    (hbad : (atoi e.Port).2 = some AtoiErr.synErr) :
    Email.Valid e = none ∧ (Email.dialer e).port = 0 := by
  have hz : e ≠ { SMTP := "", Username := "", Password := "", Port := "", From := "", To := [], Subject := "" } := by
    intro h
    rw [h] at hS
    exact hS rfl
  constructor
  · simp [Email.Valid, hz, hS, hT, hF, hU, hP, hPo, hSu, Nat.lt_one_iff,
      List.length_eq_zero]
  · exact atoiL_syn_zero e.Port.toList hbad

/-- C10 (witness): a fully populated configuration whose port is the
non-numeric string "abc". -/
theorem email_port_not_validated_witness :
    Email.Valid { SMTP := "smtp.example.com", Username := "user", Password := "pw", Port := "abc", From := "me@example.com", To := ["ops@example.com"], Subject := "ALERT" } = none ∧
    (Email.dialer { SMTP := "smtp.example.com", Username := "user", Password := "pw", Port := "abc", From := "me@example.com", To := ["ops@example.com"], Subject := "ALERT" }).port = 0 :=
  email_port_not_validated _ (by decide) (by decide) (by decide) (by decide) (by decide)
    (by decide) (by decide) (by decide)
